import Mathlib

/-!
Verification of the `openslide-rs` Python bindings (`openslide-py`).

Two components are modelled:

* the DeepZoom tile-pyramid generator (`openslide_py.deepzoom.DeepZoomGenerator`),
  whose implementation file is absent from the sources at hand; it is modelled
  from the specification's algorithm (spec §3, §4.1, §4.2, §4.3);
* the `OpenSlide` wrapper and its `OpenSlideMap` helper
  (`openslide_py/open_slide.py`), translated from the Python source.

Machine integers are modelled as `Nat`/`Int` (Python integers are unbounded),
downsample factors as `ℚ` (the spec treats them as exact reals), fallible
operations as `Option`/`Except`.
-/

namespace OpenslidePy

/-- Ceiling division `ceil(a / b)` on naturals (`math.ceil(a / b)` for `b > 0`). -/
def ceilDiv (a b : Nat) : Nat := (a + b - 1) / b

/-- Halving loop with explicit fuel; each iteration strictly decreases
`w + h`, so fuel `w + h` is enough (`halveSeries_eq` below certifies the
intended recurrence). -/
def halveSeriesAux : Nat → Nat → Nat → List (Nat × Nat)
  | 0, w, h => [(w, h)]
  | fuel + 1, w, h =>
    if w ≤ 1 ∧ h ≤ 1 then [(w, h)]
    else (w, h) :: halveSeriesAux fuel (ceilDiv w 2) (ceilDiv h 2)

/-- Modelled from the spec (§4.1 step 2), the implementation file
`openslide_py/deepzoom.py` being absent from the sources: the descending size
series obtained from the bounds size by repeated halving with ceiling rounding
until both dimensions reach 1, inclusive. -/
def halveSeries (w h : Nat) : List (Nat × Nat) := halveSeriesAux (w + h) w h

structure SlideSource where
  levelDims : List (Nat × Nat)
  levelDowns : List ℚ
  boundsMeta : Option ((Nat × Nat) × (Nat × Nat))

/-- Modelled from the spec (§3), the implementation file
`openslide_py/deepzoom.py` being absent: the DeepZoom generator's construction
parameters together with the slide geometry it reads at construction time. -/
structure DeepZoom where
  slide : SlideSource
  tileSize : Nat
  overlap : Nat
  limitBounds : Bool

namespace DeepZoom

/-- Modelled from the spec (§4.1 step 1): the resolved bounds origin-if
`limitBounds` is set and the slide declares bounds metadata, its origin,
otherwise `(0, 0)`. -/
def boundsOrigin (dz : DeepZoom) : Nat × Nat :=
  if dz.limitBounds then
    match dz.slide.boundsMeta with
    | some b => b.1
    | none => (0, 0)
  else (0, 0)

/-- Modelled from the spec (§4.1 step 1): the resolved bounds size-the
declared bounds size when `limitBounds` is set and bounds metadata exists,
otherwise the full level-0 image size. -/
def boundsSize (dz : DeepZoom) : Nat × Nat :=
  if dz.limitBounds then
    match dz.slide.boundsMeta with
    | some b => b.2
    | none => dz.slide.levelDims.getD 0 (0, 0)
  else dz.slide.levelDims.getD 0 (0, 0)

/-- Modelled from the spec (§4.1 step 2): the ascending pyramid-level size
table, index 0 smallest, last index the bounds-limited full-resolution size. -/
def zDimensions (dz : DeepZoom) : List (Nat × Nat) :=
  (halveSeries dz.boundsSize.1 dz.boundsSize.2).reverse

/-- Modelled from the spec (§3): `levelCount = len(zDimensions)`. -/
def levelCount (dz : DeepZoom) : Nat := dz.zDimensions.length

/-- Modelled from the spec (§4.1 step 6): per-level tile-grid sizes
`(ceil(width / tileSize), ceil(height / tileSize))`. -/
def levelTiles (dz : DeepZoom) : List (Nat × Nat) :=
  dz.zDimensions.map (fun p => (ceilDiv p.1 dz.tileSize, ceilDiv p.2 dz.tileSize))

/-- Modelled from the spec (§3): total number of tiles over all levels. -/
def tileCount (dz : DeepZoom) : Nat :=
  (dz.levelTiles.map (fun p => p.1 * p.2)).sum

/-- Modelled from the spec (§4.1 step 3): the downsample factor implied by
pyramid level `l`, namely `2 ^ (levelCount - 1 - l)`. -/
def impliedDownsample (dz : DeepZoom) (l : Nat) : ℚ :=
  (2 : ℚ) ^ (dz.levelCount - 1 - l)

end DeepZoom

/-- Modelled from the spec (§4.1 step 4): scan the downsample list with its
indices, keeping the qualifying entry (value `≤ d`) of largest value, ties
broken toward the lower index.  `i` is the index of the head of `vs`. -/
def bestFrom (d : ℚ) : Nat → List ℚ → Option (Nat × ℚ)
  | _, [] => none
  | i, v :: vs =>
    match bestFrom d (i + 1) vs with
    | none => if v ≤ d then some (i, v) else none
    | some q => if v ≤ d then (if v < q.2 then some q else some (i, v)) else some q

/-- Modelled from the spec (§4.1 step 4): the discrete level index maximizing
the downsample subject to it not exceeding `d`; discrete level 0 when none
qualifies. -/
def bestLevel (downs : List ℚ) (d : ℚ) : Nat :=
  match bestFrom d 0 downs with
  | none => 0
  | some q => q.1

namespace DeepZoom

/-- Modelled from the spec (§4.1 step 4): the discrete slide level supplying
pyramid level `l`. -/
def levelSlideLevel (dz : DeepZoom) (l : Nat) : Nat :=
  bestLevel dz.slide.levelDowns (dz.impliedDownsample l)

/-- Modelled from the spec (§4.1 step 5, verbatim formula): the chosen
discrete level's downsample divided by the implied downsample. -/
def levelSlideResizeFactor (dz : DeepZoom) (l : Nat) : ℚ :=
  dz.slide.levelDowns.getD (dz.levelSlideLevel l) 1 / dz.impliedDownsample l

/-- Modelled from the spec (§4.2 steps 1-2), one axis: the tile rectangle of
tile `t` (of `tc` tiles) along an axis of `size` pixels, without overlap then
extended by `overlap` on each side that has a neighbour, clipped to
`[0, size]`.  Returns the half-open interval `(o0, o1)`. -/
def axisRect (size tileSize overlap t tc : Nat) : Nat × Nat :=
  let x0 := t * tileSize
  let x1 := min (x0 + tileSize) size
  let o0 := if 0 < t then x0 - overlap else x0
  let o1 := if t + 1 < tc then min (x1 + overlap) size else x1
  (o0, o1)

/-- Modelled from the spec (§4.2 steps 1-5): for a (valid) level `l` and tile
address `(col, row)`, the intermediate tile data: the level-0 top-left corner,
the chosen discrete slide level, the native read size (steps 3-5), and the
target tile pixel size (step 2). -/
def tileInfo (dz : DeepZoom) (l col row : Nat) :
    ((Nat × Nat) × Nat × (Nat × Nat)) × (Nat × Nat) :=
  let dims := dz.zDimensions.getD l (0, 0)
  let tiles := dz.levelTiles.getD l (0, 0)
  let rx := axisRect dims.1 dz.tileSize dz.overlap col tiles.1
  let ry := axisRect dims.2 dz.tileSize dz.overlap row tiles.2
  let tw := rx.2 - rx.1
  let th := ry.2 - ry.1
  let ld : Nat := 2 ^ (dz.levelCount - 1 - l)
  let l0 := (dz.boundsOrigin.1 + rx.1 * ld, dz.boundsOrigin.2 + ry.1 * ld)
  let sl := dz.levelSlideLevel l
  let ds := dz.slide.levelDowns.getD sl 1
  let nw := (⌈((tw * ld : Nat) : ℚ) / ds⌉).toNat
  let nh := (⌈((th * ld : Nat) : ℚ) / ds⌉).toNat
  ((l0, sl, (nw, nh)), (tw, th))

/-- Modelled from the spec (§4.2 validation): `0 ≤ level < levelCount` and the
address lies inside that level's tile grid. -/
def validAddr (dz : DeepZoom) (level : Int) (addr : Int × Int) : Bool :=
  let tiles := dz.levelTiles.getD level.toNat (0, 0)
  decide (0 ≤ level) && decide (level < (dz.levelCount : Int)) &&
  decide (0 ≤ addr.1) && decide (addr.1 < (tiles.1 : Int)) &&
  decide (0 ≤ addr.2) && decide (addr.2 < (tiles.2 : Int))

/-- Modelled from the spec (§4.2): `getTileCoordinates` exposes steps 1-5's
intermediate result `(level0_topleft, chosenDiscreteLevel, nativeReadSize)`;
`none` models the out-of-range error. -/
def getTileCoordinates (dz : DeepZoom) (level : Int) (addr : Int × Int) :
    Option ((Nat × Nat) × Nat × (Nat × Nat)) :=
  if dz.validAddr level addr then
    some (dz.tileInfo level.toNat addr.1.toNat addr.2.toNat).1
  else none

/-- Modelled from the spec (§4.2): `getTileDimensions` exposes the final
output size from step 2 without performing a read; `none` models the
out-of-range error. -/
def getTileDimensions (dz : DeepZoom) (level : Int) (addr : Int × Int) :
    Option (Nat × Nat) :=
  if dz.validAddr level addr then
    some (dz.tileInfo level.toNat addr.1.toNat addr.2.toNat).2
  else none

/-- Modelled from the spec (§4.2 steps 6-8): `getTile` issues exactly one
region read (the `read` oracle, returning a pixel buffer modelled by its
dimensions), then rescales the buffer to the exact target size when the
resize factor is not 1; `none` models the out-of-range error. -/
def getTile (dz : DeepZoom) (read : Nat → Nat → Nat → Nat → Nat → Nat × Nat)
    (level : Int) (addr : Int × Int) : Option (Nat × Nat) :=
  if dz.validAddr level addr then
    let info := dz.tileInfo level.toNat addr.1.toNat addr.2.toNat
    let buf := read info.1.1.1 info.1.1.2 info.1.2.1 info.1.2.2.1 info.1.2.2.2
    some (if dz.levelSlideResizeFactor level.toNat ≠ 1 then info.2 else buf)
  else none

end DeepZoom

/-- The slide source's region-read contract (spec §6): `read` returns a pixel
buffer of exactly the requested `width × height`. -/
def specRead : Nat → Nat → Nat → Nat → Nat → Nat × Nat :=
  fun _ _ _ w h => (w, h)

/-- The `boxes.tiff` test fixture: a 300×250 full-resolution image with 4
discrete levels (see `test_basic_metadata`), downsample factors being the
average of the per-axis ratios, and no bounds metadata (generic tiff). -/
def boxesSlide : SlideSource :=
  { levelDims := [(300, 250), (150, 125), (75, 62), (37, 31)]
    levelDowns := [1, 2, (300 / 75 + 250 / 62) / 2, (300 / 37 + 250 / 31) / 2]
    boundsMeta := none }

/-- The generator of `test_deepzoom.py`: `DeepZoomGenerator(slide, 254, 1,
limit_bounds=False)` over the `boxes.tiff` fixture. -/
def dzBoxes : DeepZoom :=
  { slide := boxesSlide, tileSize := 254, overlap := 1, limitBounds := false }

/-- A single-level 7×7 slide used to exhibit overlap clipping. -/
def clipSlide : SlideSource :=
  { levelDims := [(7, 7)], levelDowns := [1], boundsMeta := none }

/-- A generator whose overlap extension crosses into a truncated final
column/row: tiles of size 3 with overlap 2 over a 7×7 image. -/
def dzClip : DeepZoom :=
  { slide := clipSlide, tileSize := 3, overlap := 2, limitBounds := false }

/-- The DeepZoom schema identifier required in the descriptor document. -/
def dziSchema : String := "http://schemas.microsoft.com/deepzoom/2008"

/-- Modelled from the spec (§4.3, §6), the implementation file
`openslide_py/deepzoom.py` being absent: the descriptor document (`get_dzi`),
a root element carrying `TileSize`, `Overlap`, `Format` and the DeepZoom
schema identifier, with a nested `Size` element carrying the bounds-limited
full-resolution `Width`/`Height`. -/
def DeepZoom.getDescriptor (dz : DeepZoom) (fmt : String) : String :=
  "<?xml version=\"1.0\" encoding=\"UTF-8\"?><Image " ++
  ("TileSize=\"" ++ toString dz.tileSize ++ "\"") ++
  " " ++
  ("Overlap=\"" ++ toString dz.overlap ++ "\"") ++
  " " ++
  ("Format=\"" ++ fmt ++ "\"") ++
  " xmlns=\"" ++
  dziSchema ++
  "\">" ++
  ("<Size Width=\"" ++ toString dz.boundsSize.1 ++
   "\" Height=\"" ++ toString dz.boundsSize.2 ++ "\"/>") ++
  "</Image>"

/-- Substring relation: `sub` occurs as a contiguous substring of `s`. -/
def strContains (s sub : String) : Prop := ∃ a b : String, s = a ++ sub ++ b

/-- Python `OpenSlideMap` (`open_slide.py` lines 28-45): a read-only mapping over a
fixed name list, with an on-demand accessor closure per key. -/
structure OpenSlideMap (α : Type) where
  names : List String
  closure : String → α

/-- Method `OpenSlideMap.keys` (line 33). -/
def OpenSlideMap.keys (m : OpenSlideMap α) : List String := m.names

/-- Method `OpenSlideMap.__len__` (line 36). -/
def OpenSlideMap.length (m : OpenSlideMap α) : Nat := m.names.length

/-- Method `OpenSlideMap.__iter__` (line 39): iteration yields the names in order. -/
def OpenSlideMap.iter (m : OpenSlideMap α) : List String := m.names

/-- Method `OpenSlideMap.__getitem__` (lines 42-45): raise `KeyError(key)` when the
key is not among the names, otherwise apply the closure.  The `KeyError`
payload is the key itself. -/
def OpenSlideMap.getItem (m : OpenSlideMap α) (key : String) : Except String α :=
  if key ∈ m.names then Except.ok (m.closure key) else Except.error key

/-- Method `Mapping.get(key, default)` as used by `get_thumbnail`: `__getitem__`
with the `KeyError` replaced by the default. -/
def OpenSlideMap.get (m : OpenSlideMap α) (key : String) (d : α) : α :=
  if key ∈ m.names then m.closure key else d

/-- The native `_OpenSlide` handle consumed by the wrapper (an external
collaborator; its operations are opaque function fields).  Pixel buffers and
images are modelled by their dimensions. -/
structure Osr where
  level_count : Nat
  all_level_dimensions : List (Nat × Nat)
  all_level_downsample : List ℚ
  property_names : List String
  property : String → String
  associated_image_names : List String
  associated_image : String → Nat × Nat
  best_level_for_downsample : ℚ → Nat
  read_region : (Int × Int) → Nat → (Nat × Nat) → Nat × Nat

/-- Python `OpenSlide` (`open_slide.py`): holds `_osr` (set to `None` by `close`)
and the mirrored `_cache_size`. -/
structure OpenSlide where
  osr : Option Osr
  cache_size : Nat

/-- The message of the `OpenSlideError` raised by `_check_closed` (line 84). -/
def closedMsg : String := "Slide object was closed"

/-- Method `OpenSlide.close` (lines 79-80): sets `_osr = None`; never fails. -/
def OpenSlide.close (s : OpenSlide) : OpenSlide := { s with osr := none }

/-- Method `OpenSlide._check_closed` (lines 82-84) followed by use of `self._osr`:
raise `OpenSlideError("Slide object was closed")` when closed, otherwise
apply `f` to the handle. -/
def OpenSlide.withOsr (s : OpenSlide) (f : Osr → α) : Except String α :=
  match s.osr with
  | none => Except.error closedMsg
  | some o => Except.ok (f o)

/-- Method `OpenSlide.__enter__` (lines 86-87). -/
def OpenSlide.enterCM (s : OpenSlide) : OpenSlide := s

/-- Method `OpenSlide.__exit__` (lines 89-91): calls `close`. -/
def OpenSlide.exitCM (s : OpenSlide) : OpenSlide := s.close

/-- The `cache_size` setter (lines 127-131): `_check_closed`, native
`set_cache_size` (no modelled state), then mirror the value. -/
def OpenSlide.set_cache_size (s : OpenSlide) (size : Nat) : Except String OpenSlide :=
  match s.osr with
  | none => Except.error closedMsg
  | some _ => Except.ok { s with cache_size := size }

/-- The `level_count` property (lines 133-142). -/
def OpenSlide.level_count (s : OpenSlide) : Except String Nat :=
  s.withOsr (fun o => o.level_count)

/-- The `level_dimensions` property (lines 144-155). -/
def OpenSlide.level_dimensions (s : OpenSlide) : Except String (List (Nat × Nat)) :=
  s.withOsr (fun o => o.all_level_dimensions)

/-- The `level_downsamples` property (lines 157-167). -/
def OpenSlide.level_downsamples (s : OpenSlide) : Except String (List ℚ) :=
  s.withOsr (fun o => o.all_level_downsample)

/-- The `dimensions` property (lines 169-177): `level_dimensions[0]`. -/
def OpenSlide.dimensions (s : OpenSlide) : Except String (Nat × Nat) := do
  let dims ← s.level_dimensions
  pure (dims.getD 0 (0, 0))

/-- The `properties` property (lines 179-190). -/
def OpenSlide.properties (s : OpenSlide) : Except String (OpenSlideMap String) :=
  s.withOsr (fun o => OpenSlideMap.mk o.property_names o.property)

/-- The `associated_images` property (lines 192-206); `Image.fromarray` preserves
dimensions, so images are their dimensions here. -/
def OpenSlide.associated_images (s : OpenSlide) : Except String (OpenSlideMap (Nat × Nat)) :=
  s.withOsr (fun o => OpenSlideMap.mk o.associated_image_names o.associated_image)

/-- Method `get_best_level_for_downsample` (lines 208-216). -/
def OpenSlide.get_best_level_for_downsample (s : OpenSlide) (downsample : ℚ) :
    Except String Nat :=
  s.withOsr (fun o => o.best_level_for_downsample downsample)

/-- Method `read_region` (lines 218-239). -/
def OpenSlide.read_region (s : OpenSlide) (location : Int × Int) (level : Nat)
    (size : Nat × Nat) : Except String (Nat × Nat) :=
  s.withOsr (fun o => o.read_region location level size)

/-- Property name `openslide.background-color` (`__init__.py` line 4). -/
def propertyNameBackgroundColor : String := "openslide.background-color"

/-- Method `get_thumbnail` (lines 241-266): `_check_closed`, then the downsample /
best-level / region-read chain.  The final PIL aspect-fit resize
(`Image.thumbnail`, floating point) is not modelled; the returned value is
the read tile's pixel size. -/
def OpenSlide.get_thumbnail (s : OpenSlide) (size : Nat × Nat) :
    Except String (Nat × Nat) := do
  let _ ← s.withOsr (fun _ => ())
  let dims ← s.dimensions
  let downsample : ℚ := max ((dims.1 : ℚ) / size.1) ((dims.2 : ℚ) / size.2)
  let level ← s.get_best_level_for_downsample downsample
  let ldims ← s.level_dimensions
  let tile ← s.read_region (0, 0) level (ldims.getD level (0, 0))
  let props ← s.properties
  let _bg := "#" ++ props.get propertyNameBackgroundColor "ffffff"
  pure tile

theorem ceilDiv_two_lt {w : Nat} (hw : 2 ≤ w) : ceilDiv w 2 < w := by
  simp only [ceilDiv]
  omega

theorem ceilDiv_two_le (w : Nat) : ceilDiv w 2 ≤ w := by
  simp only [ceilDiv]
  omega

theorem halveSeriesAux_congr :
    ∀ f₁ f₂ w h, w + h ≤ f₁ → w + h ≤ f₂ →
      halveSeriesAux f₁ w h = halveSeriesAux f₂ w h := by
  intro f₁
  induction f₁ with
  | zero =>
    intro f₂ w h h₁ h₂
    have hw : w = 0 := by omega
    have hh : h = 0 := by omega
    subst hw hh
    cases f₂ with
    | zero => rfl
    | succ m => simp [halveSeriesAux]
  | succ k ih =>
    intro f₂ w h h₁ h₂
    cases f₂ with
    | zero =>
      have hw : w = 0 := by omega
      have hh : h = 0 := by omega
      subst hw hh
      simp [halveSeriesAux]
    | succ m =>
      simp only [halveSeriesAux]
      by_cases hb : w ≤ 1 ∧ h ≤ 1
      · simp [hb]
      · simp only [if_neg hb]
        have hlt : ceilDiv w 2 + ceilDiv h 2 < w + h := by
          simp only [ceilDiv]
          omega
        have := ih m (ceilDiv w 2) (ceilDiv h 2) (by omega) (by omega)
        rw [this]

/-- The wrapper `halveSeries` satisfies the spec's recurrence: stop once both dimensions
are `≤ 1`, otherwise prepend the current size and recurse on the
ceiling-halved size. -/
theorem halveSeries_eq (w h : Nat) :
    halveSeries w h =
      if w ≤ 1 ∧ h ≤ 1 then [(w, h)]
      else (w, h) :: halveSeries (ceilDiv w 2) (ceilDiv h 2) := by
  unfold halveSeries
  by_cases hb : w ≤ 1 ∧ h ≤ 1
  · cases hwh : w + h with
    | zero => simp [halveSeriesAux, hb]
    | succ k => simp [hwh, halveSeriesAux, hb]
  · have h2 : 2 ≤ w + h := by omega
    cases hwh : w + h with
    | zero => omega
    | succ k =>
      simp only [halveSeriesAux, if_neg hb]
      have hlt : ceilDiv w 2 + ceilDiv h 2 < w + h := by
        simp only [ceilDiv]
        omega
      rw [halveSeriesAux_congr k (ceilDiv w 2 + ceilDiv h 2) _ _ (by omega) (by omega)]

/-- The discrete-level geometry read once from the slide source (spec §3):
per-level pixel dimensions, per-level downsample factors, and the optional
bounds metadata `((x, y), (width, height))`. -/
theorem halveSeriesAux_ne_nil (fuel w h : Nat) : halveSeriesAux fuel w h ≠ [] := by
  cases fuel with
  | zero => simp [halveSeriesAux]
  | succ k =>
    simp only [halveSeriesAux]
    split <;> simp

theorem halveSeriesAux_head (fuel w h : Nat) :
    (halveSeriesAux fuel w h).head? = some (w, h) := by
  cases fuel with
  | zero => rfl
  | succ k =>
    simp only [halveSeriesAux]
    split <;> rfl

theorem halveSeriesAux_getLast (fuel : Nat) :
    ∀ w h, w + h ≤ fuel → 1 ≤ w → 1 ≤ h →
      (halveSeriesAux fuel w h).getLast? = some (1, 1) := by
  induction fuel with
  | zero => intro w h hf hw hh; omega
  | succ k ih =>
    intro w h hf hw hh
    simp only [halveSeriesAux]
    by_cases hb : w ≤ 1 ∧ h ≤ 1
    · have hw1 : w = 1 := by omega
      have hh1 : h = 1 := by omega
      subst hw1 hh1
      simp
    · rw [if_neg hb]
      obtain ⟨x, xs, hxs⟩ :=
        List.exists_cons_of_ne_nil (halveSeriesAux_ne_nil k (ceilDiv w 2) (ceilDiv h 2))
      rw [hxs, List.getLast?_cons_cons, ← hxs]
      exact ih (ceilDiv w 2) (ceilDiv h 2)
        (by simp only [ceilDiv]; omega)
        (by simp only [ceilDiv]; omega)
        (by simp only [ceilDiv]; omega)

theorem halveSeriesAux_chain (fuel : Nat) :
    ∀ w h, w + h ≤ fuel →
      List.Chain' (fun a b : Nat × Nat => b.1 = ceilDiv a.1 2 ∧ b.2 = ceilDiv a.2 2)
        (halveSeriesAux fuel w h) := by
  induction fuel with
  | zero =>
    intro w h hf
    simp [halveSeriesAux]
  | succ k ih =>
    intro w h hf
    simp only [halveSeriesAux]
    by_cases hb : w ≤ 1 ∧ h ≤ 1
    · simp [hb]
    · rw [if_neg hb, List.chain'_cons']
      refine ⟨?_, ih (ceilDiv w 2) (ceilDiv h 2) (by simp only [ceilDiv]; omega)⟩
      intro b hbmem
      rw [halveSeriesAux_head] at hbmem
      simp only [Option.mem_def, Option.some.injEq] at hbmem
      subst hbmem
      exact ⟨rfl, rfl⟩

theorem halveSeries_ne_nil (w h : Nat) : halveSeries w h ≠ [] :=
  halveSeriesAux_ne_nil _ w h

theorem halveSeries_head (w h : Nat) : (halveSeries w h).head? = some (w, h) :=
  halveSeriesAux_head _ w h

theorem halveSeries_getLast (w h : Nat) (hw : 1 ≤ w) (hh : 1 ≤ h) :
    (halveSeries w h).getLast? = some (1, 1) :=
  halveSeriesAux_getLast _ w h le_rfl hw hh

theorem halveSeries_chain (w h : Nat) :
    List.Chain' (fun a b : Nat × Nat => b.1 = ceilDiv a.1 2 ∧ b.2 = ceilDiv a.2 2)
      (halveSeries w h) :=
  halveSeriesAux_chain _ w h le_rfl

theorem dzBoxes_levelCount : dzBoxes.levelCount = 10 := by decide

theorem dzBoxes_zDimensions : dzBoxes.zDimensions =
    [(1, 1), (2, 1), (3, 2), (5, 4), (10, 8),
     (19, 16), (38, 32), (75, 63), (150, 125), (300, 250)] := by decide

theorem dzBoxes_levelTiles : dzBoxes.levelTiles =
    [(1, 1), (1, 1), (1, 1), (1, 1), (1, 1),
     (1, 1), (1, 1), (1, 1), (1, 1), (2, 1)] := by decide

theorem dzBoxes_levelDowns :
    dzBoxes.slide.levelDowns = [1, 2, 249 / 62, 9275 / 1147] := by
  norm_num [dzBoxes, boxesSlide]

theorem dzBoxes_tileSize : dzBoxes.tileSize = 254 := rfl

theorem dzBoxes_overlap : dzBoxes.overlap = 1 := rfl

theorem dzBoxes_boundsOrigin : dzBoxes.boundsOrigin = (0, 0) := by decide

theorem dzBoxes_tileInfo910 :
    dzBoxes.tileInfo 9 1 0 = (((253, 0), 0, (47, 250)), (47, 250)) := by
  norm_num [DeepZoom.tileInfo, DeepZoom.levelSlideLevel, DeepZoom.impliedDownsample,
    dzBoxes_levelCount, dzBoxes_zDimensions, dzBoxes_levelTiles, dzBoxes_levelDowns,
    dzBoxes_tileSize, dzBoxes_overlap, dzBoxes_boundsOrigin, bestLevel, bestFrom,
    DeepZoom.axisRect, ceilDiv]
  decide

theorem dzBoxes_resizeFactor9 : dzBoxes.levelSlideResizeFactor 9 = 1 := by
  norm_num [DeepZoom.levelSlideResizeFactor, DeepZoom.levelSlideLevel,
    DeepZoom.impliedDownsample, dzBoxes_levelCount, dzBoxes_levelDowns,
    bestLevel, bestFrom]

/-- C1: for the 300×250 slide with 4 discrete levels and the generator
`tileSize=254, overlap=1, limitBounds=false`: `levelCount = 10`,
`tileCount = 11`, the level tile grids are `(1,1)` nine times then `(2,1)`,
the level dimensions are the halving series from `(1,1)` up to `(300,250)`,
`getTile 9 (1,0)` returns a buffer of pixel size `(47,250)`, and
`getTileCoordinates 9 (1,0) = ((253,0), 0, (47,250))`. -/
theorem c1_concrete_scenario :
    dzBoxes.levelCount = 10 ∧
    dzBoxes.tileCount = 11 ∧
    dzBoxes.levelTiles = [(1, 1), (1, 1), (1, 1), (1, 1), (1, 1),
                          (1, 1), (1, 1), (1, 1), (1, 1), (2, 1)] ∧
    dzBoxes.zDimensions = [(1, 1), (2, 1), (3, 2), (5, 4), (10, 8),
                           (19, 16), (38, 32), (75, 63), (150, 125), (300, 250)] ∧
    dzBoxes.getTile specRead 9 (1, 0) = some (47, 250) ∧
    dzBoxes.getTileCoordinates 9 (1, 0) = some ((253, 0), 0, (47, 250)) := by
  have hv : dzBoxes.validAddr 9 (1, 0) = true := by decide
  have h9 : (9 : Int).toNat = 9 := rfl
  have h1 : (1 : Int).toNat = 1 := rfl
  have h0 : (0 : Int).toNat = 0 := rfl
  refine ⟨dzBoxes_levelCount, by decide, dzBoxes_levelTiles, dzBoxes_zDimensions, ?_, ?_⟩
  · simp [DeepZoom.getTile, hv, h9, h1, h0, dzBoxes_tileInfo910,
      dzBoxes_resizeFactor9, specRead]
  · simp [DeepZoom.getTileCoordinates, hv, h9, h1, h0, dzBoxes_tileInfo910]

theorem zDimensions_getD_eq_get (dz : DeepZoom) (i : Nat) (h : i < dz.zDimensions.length) :
    dz.zDimensions.getD i (0, 0) = dz.zDimensions.get ⟨i, h⟩ := by
  simp [List.getD_eq_getElem?_getD, List.getElem?_eq_getElem h]

/-- C2: for every valid construction (`tileSize > 0`, non-empty bounds size),
each `zDimensions` entry is the ceiling-half of its successor, the top entry
is exactly the bounds-limited full-resolution size, and the bottom entry is
`(1, 1)` (hence within `[1, tileSize]` on both axes). -/
theorem c2_zdimensions_halving (dz : DeepZoom)
    (hts : 1 ≤ dz.tileSize)
    (hw : 1 ≤ dz.boundsSize.1) (hh : 1 ≤ dz.boundsSize.2) :
    (∀ i, i + 1 < dz.levelCount →
      (dz.zDimensions.getD i (0, 0)).1 = ceilDiv (dz.zDimensions.getD (i + 1) (0, 0)).1 2 ∧
      (dz.zDimensions.getD i (0, 0)).2 = ceilDiv (dz.zDimensions.getD (i + 1) (0, 0)).2 2) ∧
    dz.zDimensions.getD (dz.levelCount - 1) (0, 0) = dz.boundsSize ∧
    dz.zDimensions.getD 0 (0, 0) = (1, 1) ∧
    1 ≤ (dz.zDimensions.getD 0 (0, 0)).1 ∧ (dz.zDimensions.getD 0 (0, 0)).1 ≤ dz.tileSize ∧
    1 ≤ (dz.zDimensions.getD 0 (0, 0)).2 ∧ (dz.zDimensions.getD 0 (0, 0)).2 ≤ dz.tileSize := by
  have hfirst : dz.zDimensions.getD 0 (0, 0) = (1, 1) := by
    have h1 : dz.zDimensions.head? = some (1, 1) := by
      rw [DeepZoom.zDimensions, List.head?_reverse]
      exact halveSeries_getLast _ _ hw hh
    rw [List.head?_eq_getElem?] at h1
    simp [List.getD_eq_getElem?_getD, h1]
  have hlast : dz.zDimensions.getD (dz.levelCount - 1) (0, 0) = dz.boundsSize := by
    have h1 : dz.zDimensions.getLast? = some dz.boundsSize := by
      rw [DeepZoom.zDimensions, List.getLast?_reverse]
      rw [halveSeries_head]
    rw [List.getLast?_eq_getElem?] at h1
    have : dz.levelCount = dz.zDimensions.length := rfl
    rw [this]
    simp [List.getD_eq_getElem?_getD, h1]
  refine ⟨?_, hlast, hfirst, ?_, ?_, ?_, ?_⟩
  · intro i hi
    have hchain :
        List.Chain' (fun a b : Nat × Nat => a.1 = ceilDiv b.1 2 ∧ a.2 = ceilDiv b.2 2)
          dz.zDimensions := by
      rw [DeepZoom.zDimensions]
      exact List.chain'_reverse.mpr (halveSeries_chain _ _)
    have hlen : i < dz.zDimensions.length - 1 := by
      have : dz.levelCount = dz.zDimensions.length := rfl
      omega
    have h := List.chain'_iff_get.mp hchain i hlen
    have hi1 : i < dz.zDimensions.length := by omega
    have hi2 : i + 1 < dz.zDimensions.length := by
      have : dz.levelCount = dz.zDimensions.length := rfl
      omega
    rw [zDimensions_getD_eq_get dz i hi1, zDimensions_getD_eq_get dz (i + 1) hi2]
    exact h
  · rw [hfirst]
  · rw [hfirst]; exact hts
  · rw [hfirst]
  · rw [hfirst]; exact hts

/-- Witness for C2 at the concrete `boxes.tiff` generator. -/
theorem c2_witness :
    dzBoxes.zDimensions.getD 0 (0, 0) = (1, 1) ∧
    dzBoxes.zDimensions.getD (dzBoxes.levelCount - 1) (0, 0) = dzBoxes.boundsSize :=
  ⟨(c2_zdimensions_halving dzBoxes (by decide) (by decide) (by decide)).2.2.1,
   (c2_zdimensions_halving dzBoxes (by decide) (by decide) (by decide)).2.1⟩

theorem levelTiles_length (dz : DeepZoom) : dz.levelTiles.length = dz.levelCount := by
  simp [DeepZoom.levelTiles, DeepZoom.levelCount]

theorem levelTiles_getD (dz : DeepZoom) (i : Nat) (hi : i < dz.levelCount) :
    dz.levelTiles.getD i (0, 0) =
      (ceilDiv (dz.zDimensions.getD i (0, 0)).1 dz.tileSize,
       ceilDiv (dz.zDimensions.getD i (0, 0)).2 dz.tileSize) := by
  have hi' : i < dz.zDimensions.length := hi
  have hlen : i < dz.levelTiles.length := by rw [levelTiles_length]; exact hi
  rw [List.getD_eq_getElem?_getD, List.getElem?_eq_getElem hlen]
  rw [zDimensions_getD_eq_get dz i hi']
  simp [DeepZoom.levelTiles]

theorem list_sum_eq_range (l : List Nat) :
    l.sum = ∑ i ∈ Finset.range l.length, l.getD i 0 := by
  induction l with
  | nil => simp
  | cons x xs ih =>
    rw [List.sum_cons, List.length_cons, Finset.sum_range_succ']
    simp only [List.getD_cons_succ, List.getD_cons_zero]
    rw [← ih, Nat.add_comm]

/-- C3: every level's tile grid is the ceiling division of that level's
dimensions by the tile size, and `tileCount` is the sum over all levels of
`columns * rows`. -/
theorem c3_leveltiles_tilecount (dz : DeepZoom) :
    (∀ i, i < dz.levelCount →
      dz.levelTiles.getD i (0, 0) =
        (ceilDiv (dz.zDimensions.getD i (0, 0)).1 dz.tileSize,
         ceilDiv (dz.zDimensions.getD i (0, 0)).2 dz.tileSize)) ∧
    dz.tileCount = ∑ i ∈ Finset.range dz.levelCount,
      (dz.levelTiles.getD i (0, 0)).1 * (dz.levelTiles.getD i (0, 0)).2 := by
  refine ⟨fun i hi => levelTiles_getD dz i hi, ?_⟩
  rw [DeepZoom.tileCount, list_sum_eq_range]
  have hlen : (dz.levelTiles.map (fun p => p.1 * p.2)).length = dz.levelCount := by
    rw [List.length_map, levelTiles_length]
  rw [hlen]
  apply Finset.sum_congr rfl
  intro i hi
  rw [Finset.mem_range] at hi
  have h1 : i < dz.levelTiles.length := by rw [levelTiles_length]; exact hi
  have h2 : i < (dz.levelTiles.map (fun p => p.1 * p.2)).length := by
    rw [List.length_map]; exact h1
  rw [List.getD_eq_getElem?_getD, List.getElem?_eq_getElem h2]
  rw [List.getD_eq_getElem?_getD, List.getElem?_eq_getElem h1]
  simp

/-- Witness for C3 at the concrete `boxes.tiff` generator and level 9. -/
theorem c3_witness :
    dzBoxes.levelTiles.getD 9 (0, 0) =
      (ceilDiv (dzBoxes.zDimensions.getD 9 (0, 0)).1 dzBoxes.tileSize,
       ceilDiv (dzBoxes.zDimensions.getD 9 (0, 0)).2 dzBoxes.tileSize) ∧
    dzBoxes.tileCount = ∑ i ∈ Finset.range dzBoxes.levelCount,
      (dzBoxes.levelTiles.getD i (0, 0)).1 * (dzBoxes.levelTiles.getD i (0, 0)).2 :=
  ⟨(c3_leveltiles_tilecount dzBoxes).1 9 (by decide),
   (c3_leveltiles_tilecount dzBoxes).2⟩

theorem impliedDownsample_eq_cast (dz : DeepZoom) (l : Nat) :
    dz.impliedDownsample l = ((2 ^ (dz.levelCount - 1 - l) : ℕ) : ℚ) := by
  rw [DeepZoom.impliedDownsample]
  norm_cast

theorem impliedDownsample_pos (dz : DeepZoom) (l : Nat) :
    0 < dz.impliedDownsample l := by
  rw [DeepZoom.impliedDownsample]
  positivity

theorem ceil_mul_pow_div (a k : Nat) :
    (⌈((a * 2 ^ k : ℕ) : ℚ) / ((2 ^ k : ℕ) : ℚ)⌉).toNat = a := by
  have h2 : ((2 ^ k : ℕ) : ℚ) ≠ 0 := by positivity
  rw [Nat.cast_mul, mul_div_assoc, div_self h2, mul_one, Int.ceil_natCast,
    Int.toNat_ofNat]

theorem tileInfo_native_of_factor_one (dz : DeepZoom) (l col row : Nat)
    (hf : dz.levelSlideResizeFactor l = 1) :
    (dz.tileInfo l col row).1.2.2 = (dz.tileInfo l col row).2 := by
  have hpos := impliedDownsample_pos dz l
  have hds : dz.slide.levelDowns.getD (dz.levelSlideLevel l) 1 = dz.impliedDownsample l := by
    have h := hf
    rw [DeepZoom.levelSlideResizeFactor, div_eq_one_iff_eq (ne_of_gt hpos)] at h
    exact h
  have hcast := impliedDownsample_eq_cast dz l
  simp only [DeepZoom.tileInfo, hds, hcast]
  rw [ceil_mul_pow_div, ceil_mul_pow_div]

/-- C4: for every in-range level and address, and any region-read oracle
honouring the slide source's contract (the returned buffer has exactly the
requested size), the buffer returned by `getTile` has the pixel dimensions
reported by `getTileDimensions` (which performs no read: it is a pure
function of the geometry). -/
theorem c4_gettile_size_eq_dimensions (dz : DeepZoom)
    (read : Nat → Nat → Nat → Nat → Nat → Nat × Nat)
    (hread : ∀ x y l w h, read x y l w h = (w, h))
    (level : Int) (addr : Int × Int)
    (hv : dz.validAddr level addr = true) :
    dz.getTile read level addr = dz.getTileDimensions level addr := by
  simp only [DeepZoom.getTile, DeepZoom.getTileDimensions, hv, if_true]
  congr 1
  by_cases hf : dz.levelSlideResizeFactor level.toNat = 1
  · rw [if_neg (fun hne => hne hf), hread]
    exact tileInfo_native_of_factor_one dz level.toNat addr.1.toNat addr.2.toNat hf
  · rw [if_pos hf]

/-- Witness for C4 at the concrete `boxes.tiff` generator, level 9,
address (1,0), with the contract-honouring read. -/
theorem c4_witness :
    dzBoxes.getTile specRead 9 (1, 0) = dzBoxes.getTileDimensions 9 (1, 0) :=
  c4_gettile_size_eq_dimensions dzBoxes specRead (fun _ _ _ _ _ => rfl) 9 (1, 0)
    (by decide)

/-- C5: the three tile queries fail with the out-of-range error (modelled by
`none`), before any region read is attempted, exactly when the level is
negative, at least `levelCount`, or an address component is negative or at
least the level's tile-grid size; in-range queries never produce it. -/
theorem c5_out_of_range (dz : DeepZoom) (level : Int) (addr : Int × Int) :
    ((∀ read, dz.getTile read level addr = none) ↔
      (level < 0 ∨ (dz.levelCount : Int) ≤ level ∨
       addr.1 < 0 ∨ ((dz.levelTiles.getD level.toNat (0, 0)).1 : Int) ≤ addr.1 ∨
       addr.2 < 0 ∨ ((dz.levelTiles.getD level.toNat (0, 0)).2 : Int) ≤ addr.2)) ∧
    (dz.getTileCoordinates level addr = none ↔
      (level < 0 ∨ (dz.levelCount : Int) ≤ level ∨
       addr.1 < 0 ∨ ((dz.levelTiles.getD level.toNat (0, 0)).1 : Int) ≤ addr.1 ∨
       addr.2 < 0 ∨ ((dz.levelTiles.getD level.toNat (0, 0)).2 : Int) ≤ addr.2)) ∧
    (dz.getTileDimensions level addr = none ↔
      (level < 0 ∨ (dz.levelCount : Int) ≤ level ∨
       addr.1 < 0 ∨ ((dz.levelTiles.getD level.toNat (0, 0)).1 : Int) ≤ addr.1 ∨
       addr.2 < 0 ∨ ((dz.levelTiles.getD level.toNat (0, 0)).2 : Int) ≤ addr.2)) := by
  have hva : dz.validAddr level addr = true ↔
      (0 ≤ level ∧ level < (dz.levelCount : Int) ∧ 0 ≤ addr.1 ∧
       addr.1 < ((dz.levelTiles.getD level.toNat (0, 0)).1 : Int) ∧ 0 ≤ addr.2 ∧
       addr.2 < ((dz.levelTiles.getD level.toNat (0, 0)).2 : Int)) := by
    simp [DeepZoom.validAddr, and_assoc]
  cases hb : dz.validAddr level addr with
  | false =>
    have hC : level < 0 ∨ (dz.levelCount : Int) ≤ level ∨
        addr.1 < 0 ∨ ((dz.levelTiles.getD level.toNat (0, 0)).1 : Int) ≤ addr.1 ∨
        addr.2 < 0 ∨ ((dz.levelTiles.getD level.toNat (0, 0)).2 : Int) ≤ addr.2 := by
      have hnot : ¬ (0 ≤ level ∧ level < (dz.levelCount : Int) ∧ 0 ≤ addr.1 ∧
          addr.1 < ((dz.levelTiles.getD level.toNat (0, 0)).1 : Int) ∧ 0 ≤ addr.2 ∧
          addr.2 < ((dz.levelTiles.getD level.toNat (0, 0)).2 : Int)) := by
        intro hc
        rw [hva.mpr hc] at hb
        cases hb
      omega
    exact ⟨iff_of_true (fun read => by simp [DeepZoom.getTile, hb]) hC,
      iff_of_true (by simp [DeepZoom.getTileCoordinates, hb]) hC,
      iff_of_true (by simp [DeepZoom.getTileDimensions, hb]) hC⟩
  | true =>
    have hC : ¬ (level < 0 ∨ (dz.levelCount : Int) ≤ level ∨
        addr.1 < 0 ∨ ((dz.levelTiles.getD level.toNat (0, 0)).1 : Int) ≤ addr.1 ∨
        addr.2 < 0 ∨ ((dz.levelTiles.getD level.toNat (0, 0)).2 : Int) ≤ addr.2) := by
      have hc := hva.mp hb
      omega
    refine ⟨iff_of_false ?_ hC, iff_of_false ?_ hC, iff_of_false ?_ hC⟩
    · intro hall
      have h1 := hall (fun _ _ _ _ _ => (0, 0))
      simp [DeepZoom.getTile, hb] at h1
    · simp [DeepZoom.getTileCoordinates, hb]
    · simp [DeepZoom.getTileDimensions, hb]

/-- Witness for C5: at the concrete generator, level 10 (out of range) yields
the error and the in-range query at level 9 does not. -/
theorem c5_witness :
    dzBoxes.getTileCoordinates 10 (0, 0) = none ∧
    dzBoxes.getTileDimensions 9 (1, 0) ≠ none :=
  ⟨(c5_out_of_range dzBoxes 10 (0, 0)).2.1.mpr (by decide),
   fun h => by
     have h2 := (c5_out_of_range dzBoxes 9 (1, 0)).2.2.mp h
     revert h2
     decide⟩

theorem ceilDiv_gt_iff (size ts t : Nat) (hts : 0 < ts) :
    t < ceilDiv size ts ↔ t * ts < size := by
  rw [ceilDiv]
  have h1 : t < (size + ts - 1) / ts ↔ t + 1 ≤ (size + ts - 1) / ts := Iff.rfl
  rw [h1, Nat.le_div_iff_mul_le hts]
  have h2 : (t + 1) * ts = t * ts + ts := by ring
  omega

theorem axisRect_spec (size ts ov t tc : Nat) (htc : tc = ceilDiv size ts)
    (ht : t < tc) :
    (DeepZoom.axisRect size ts ov t tc).1 ≤ (DeepZoom.axisRect size ts ov t tc).2 ∧
    (DeepZoom.axisRect size ts ov t tc).2 ≤ size ∧
    (t = 0 → (DeepZoom.axisRect size ts ov t tc).1 = 0) ∧
    (t + 1 = tc → (DeepZoom.axisRect size ts ov t tc).2 = min (t * ts + ts) size) ∧
    (0 < t → t + 1 < tc → ov ≤ t * ts → t * ts + ts + ov ≤ size →
      (DeepZoom.axisRect size ts ov t tc).2 - (DeepZoom.axisRect size ts ov t tc).1 =
        ts + 2 * ov) ∧
    (t = 0 → t + 1 < tc → ts + ov ≤ size →
      (DeepZoom.axisRect size ts ov t tc).2 - (DeepZoom.axisRect size ts ov t tc).1 =
        ts + ov) ∧
    (0 < t → t + 1 = tc → t * ts + ts ≤ size → ov ≤ t * ts →
      (DeepZoom.axisRect size ts ov t tc).2 - (DeepZoom.axisRect size ts ov t tc).1 =
        ts + ov) := by
  have hts : 0 < ts := by
    by_contra h
    have hts0 : ts = 0 := by omega
    rw [htc, hts0, ceilDiv] at ht
    simp at ht
  have hx0 : t * ts < size := (ceilDiv_gt_iff size ts t hts).mp (htc ▸ ht)
  have hnext : t + 1 < tc → t * ts + ts < size := by
    intro h
    have h2 := (ceilDiv_gt_iff size ts (t + 1) hts).mp (htc ▸ h)
    have h3 : (t + 1) * ts = t * ts + ts := by ring
    omega
  refine ⟨?_, ?_, ?_, ?_, ?_, ?_, ?_⟩
  · simp only [DeepZoom.axisRect]
    split_ifs with ha hb hb <;> (try have hn := hnext hb) <;> omega
  · simp only [DeepZoom.axisRect]
    split_ifs <;> omega
  · intro h
    subst h
    simp only [DeepZoom.axisRect]
    split_ifs <;> omega
  · intro h
    simp only [DeepZoom.axisRect]
    split_ifs <;> omega
  · intro ha hb hc hd
    have hn := hnext hb
    simp only [DeepZoom.axisRect]
    split_ifs <;> omega
  · intro ha hb hc
    subst ha
    have hn := hnext hb
    simp only [DeepZoom.axisRect]
    split_ifs <;> omega
  · intro ha hb hc hd
    simp only [DeepZoom.axisRect]
    split_ifs <;> omega

/-- C6 (amended): for every valid address the tile reported by
`getTileDimensions` is the per-axis `axisRect` extent; it never exceeds the
level's extent, a tile gets no overlap on a side with no neighbour, the last
tile is truncated to the remaining pixels, and the `tileSize + 2*overlap`
(interior) / `tileSize + overlap` (exactly one edge-adjacent side) extents
hold whenever the overlap-extended rectangle stays inside the level bounds
(it is clipped to them otherwise). -/
theorem c6_edge_policy (dz : DeepZoom) (level : Int) (addr : Int × Int)
    (hv : dz.validAddr level addr = true) :
    dz.getTileDimensions level addr =
      some ((DeepZoom.axisRect (dz.zDimensions.getD level.toNat (0, 0)).1 dz.tileSize
               dz.overlap addr.1.toNat (dz.levelTiles.getD level.toNat (0, 0)).1).2 -
            (DeepZoom.axisRect (dz.zDimensions.getD level.toNat (0, 0)).1 dz.tileSize
               dz.overlap addr.1.toNat (dz.levelTiles.getD level.toNat (0, 0)).1).1,
            (DeepZoom.axisRect (dz.zDimensions.getD level.toNat (0, 0)).2 dz.tileSize
               dz.overlap addr.2.toNat (dz.levelTiles.getD level.toNat (0, 0)).2).2 -
            (DeepZoom.axisRect (dz.zDimensions.getD level.toNat (0, 0)).2 dz.tileSize
               dz.overlap addr.2.toNat (dz.levelTiles.getD level.toNat (0, 0)).2).1) ∧
    (DeepZoom.axisRect (dz.zDimensions.getD level.toNat (0, 0)).1 dz.tileSize
       dz.overlap addr.1.toNat (dz.levelTiles.getD level.toNat (0, 0)).1).2 ≤
      (dz.zDimensions.getD level.toNat (0, 0)).1 ∧
    (DeepZoom.axisRect (dz.zDimensions.getD level.toNat (0, 0)).2 dz.tileSize
       dz.overlap addr.2.toNat (dz.levelTiles.getD level.toNat (0, 0)).2).2 ≤
      (dz.zDimensions.getD level.toNat (0, 0)).2 ∧
    (addr.1.toNat = 0 →
      (DeepZoom.axisRect (dz.zDimensions.getD level.toNat (0, 0)).1 dz.tileSize
         dz.overlap addr.1.toNat (dz.levelTiles.getD level.toNat (0, 0)).1).1 = 0) ∧
    (addr.2.toNat = 0 →
      (DeepZoom.axisRect (dz.zDimensions.getD level.toNat (0, 0)).2 dz.tileSize
         dz.overlap addr.2.toNat (dz.levelTiles.getD level.toNat (0, 0)).2).1 = 0) ∧
    (addr.1.toNat + 1 = (dz.levelTiles.getD level.toNat (0, 0)).1 →
      (DeepZoom.axisRect (dz.zDimensions.getD level.toNat (0, 0)).1 dz.tileSize
         dz.overlap addr.1.toNat (dz.levelTiles.getD level.toNat (0, 0)).1).2 =
        min (addr.1.toNat * dz.tileSize + dz.tileSize)
          (dz.zDimensions.getD level.toNat (0, 0)).1) ∧
    (addr.2.toNat + 1 = (dz.levelTiles.getD level.toNat (0, 0)).2 →
      (DeepZoom.axisRect (dz.zDimensions.getD level.toNat (0, 0)).2 dz.tileSize
         dz.overlap addr.2.toNat (dz.levelTiles.getD level.toNat (0, 0)).2).2 =
        min (addr.2.toNat * dz.tileSize + dz.tileSize)
          (dz.zDimensions.getD level.toNat (0, 0)).2) ∧
    (0 < addr.1.toNat → addr.1.toNat + 1 < (dz.levelTiles.getD level.toNat (0, 0)).1 →
      dz.overlap ≤ addr.1.toNat * dz.tileSize →
      addr.1.toNat * dz.tileSize + dz.tileSize + dz.overlap ≤
        (dz.zDimensions.getD level.toNat (0, 0)).1 →
      (DeepZoom.axisRect (dz.zDimensions.getD level.toNat (0, 0)).1 dz.tileSize
         dz.overlap addr.1.toNat (dz.levelTiles.getD level.toNat (0, 0)).1).2 -
      (DeepZoom.axisRect (dz.zDimensions.getD level.toNat (0, 0)).1 dz.tileSize
         dz.overlap addr.1.toNat (dz.levelTiles.getD level.toNat (0, 0)).1).1 =
        dz.tileSize + 2 * dz.overlap) ∧
    (0 < addr.2.toNat → addr.2.toNat + 1 < (dz.levelTiles.getD level.toNat (0, 0)).2 →
      dz.overlap ≤ addr.2.toNat * dz.tileSize →
      addr.2.toNat * dz.tileSize + dz.tileSize + dz.overlap ≤
        (dz.zDimensions.getD level.toNat (0, 0)).2 →
      (DeepZoom.axisRect (dz.zDimensions.getD level.toNat (0, 0)).2 dz.tileSize
         dz.overlap addr.2.toNat (dz.levelTiles.getD level.toNat (0, 0)).2).2 -
      (DeepZoom.axisRect (dz.zDimensions.getD level.toNat (0, 0)).2 dz.tileSize
         dz.overlap addr.2.toNat (dz.levelTiles.getD level.toNat (0, 0)).2).1 =
        dz.tileSize + 2 * dz.overlap) ∧
    (addr.1.toNat = 0 → addr.1.toNat + 1 < (dz.levelTiles.getD level.toNat (0, 0)).1 →
      dz.tileSize + dz.overlap ≤ (dz.zDimensions.getD level.toNat (0, 0)).1 →
      (DeepZoom.axisRect (dz.zDimensions.getD level.toNat (0, 0)).1 dz.tileSize
         dz.overlap addr.1.toNat (dz.levelTiles.getD level.toNat (0, 0)).1).2 -
      (DeepZoom.axisRect (dz.zDimensions.getD level.toNat (0, 0)).1 dz.tileSize
         dz.overlap addr.1.toNat (dz.levelTiles.getD level.toNat (0, 0)).1).1 =
        dz.tileSize + dz.overlap) ∧
    (addr.2.toNat = 0 → addr.2.toNat + 1 < (dz.levelTiles.getD level.toNat (0, 0)).2 →
      dz.tileSize + dz.overlap ≤ (dz.zDimensions.getD level.toNat (0, 0)).2 →
      (DeepZoom.axisRect (dz.zDimensions.getD level.toNat (0, 0)).2 dz.tileSize
         dz.overlap addr.2.toNat (dz.levelTiles.getD level.toNat (0, 0)).2).2 -
      (DeepZoom.axisRect (dz.zDimensions.getD level.toNat (0, 0)).2 dz.tileSize
         dz.overlap addr.2.toNat (dz.levelTiles.getD level.toNat (0, 0)).2).1 =
        dz.tileSize + dz.overlap) ∧
    (0 < addr.1.toNat → addr.1.toNat + 1 = (dz.levelTiles.getD level.toNat (0, 0)).1 →
      addr.1.toNat * dz.tileSize + dz.tileSize ≤
        (dz.zDimensions.getD level.toNat (0, 0)).1 →
      dz.overlap ≤ addr.1.toNat * dz.tileSize →
      (DeepZoom.axisRect (dz.zDimensions.getD level.toNat (0, 0)).1 dz.tileSize
         dz.overlap addr.1.toNat (dz.levelTiles.getD level.toNat (0, 0)).1).2 -
      (DeepZoom.axisRect (dz.zDimensions.getD level.toNat (0, 0)).1 dz.tileSize
         dz.overlap addr.1.toNat (dz.levelTiles.getD level.toNat (0, 0)).1).1 =
        dz.tileSize + dz.overlap) ∧
    (0 < addr.2.toNat → addr.2.toNat + 1 = (dz.levelTiles.getD level.toNat (0, 0)).2 →
      addr.2.toNat * dz.tileSize + dz.tileSize ≤
        (dz.zDimensions.getD level.toNat (0, 0)).2 →
      dz.overlap ≤ addr.2.toNat * dz.tileSize →
      (DeepZoom.axisRect (dz.zDimensions.getD level.toNat (0, 0)).2 dz.tileSize
         dz.overlap addr.2.toNat (dz.levelTiles.getD level.toNat (0, 0)).2).2 -
      (DeepZoom.axisRect (dz.zDimensions.getD level.toNat (0, 0)).2 dz.tileSize
         dz.overlap addr.2.toNat (dz.levelTiles.getD level.toNat (0, 0)).2).1 =
        dz.tileSize + dz.overlap) := by
  have hv2 := hv
  simp only [DeepZoom.validAddr, Bool.and_eq_true, decide_eq_true_eq] at hv2
  obtain ⟨⟨⟨⟨⟨h1, h2⟩, h3⟩, h4⟩, h5⟩, h6⟩ := hv2
  have hl : level.toNat < dz.levelCount := by omega
  have hcol : addr.1.toNat < (dz.levelTiles.getD level.toNat (0, 0)).1 := by omega
  have hrow : addr.2.toNat < (dz.levelTiles.getD level.toNat (0, 0)).2 := by omega
  have htile := levelTiles_getD dz level.toNat hl
  have hcx : (dz.levelTiles.getD level.toNat (0, 0)).1 =
      ceilDiv (dz.zDimensions.getD level.toNat (0, 0)).1 dz.tileSize := by
    rw [htile]
  have hcy : (dz.levelTiles.getD level.toNat (0, 0)).2 =
      ceilDiv (dz.zDimensions.getD level.toNat (0, 0)).2 dz.tileSize := by
    rw [htile]
  have hx := axisRect_spec (dz.zDimensions.getD level.toNat (0, 0)).1 dz.tileSize
    dz.overlap addr.1.toNat (dz.levelTiles.getD level.toNat (0, 0)).1 hcx hcol
  have hy := axisRect_spec (dz.zDimensions.getD level.toNat (0, 0)).2 dz.tileSize
    dz.overlap addr.2.toNat (dz.levelTiles.getD level.toNat (0, 0)).2 hcy hrow
  refine ⟨?_, hx.2.1, hy.2.1, hx.2.2.1, hy.2.2.1, hx.2.2.2.1, hy.2.2.2.1,
    hx.2.2.2.2.1, hy.2.2.2.2.1, hx.2.2.2.2.2.1, hy.2.2.2.2.2.1,
    hx.2.2.2.2.2.2, hy.2.2.2.2.2.2⟩
  simp only [DeepZoom.getTileDimensions, hv, if_true, DeepZoom.tileInfo]

/-- Witness for C6 at the concrete `boxes.tiff` generator, level 9,
address (1,0). -/
theorem c6_witness : dzBoxes.getTileDimensions 9 (1, 0) = some (47, 250) := by
  have h := c6_edge_policy dzBoxes 9 (1, 0) (by decide)
  exact h.1.trans (by decide)

/-- Counterexample to C6 as stated: over a 7×7 slide with `tileSize=3`,
`overlap=2`, the deepest level has a 3×3 tile grid, so tile (1,1) is interior
on both axes, yet its extent is 6 per axis, not
`tileSize + 2*overlap = 7`: the overlap extension is clipped at the level
boundary (spec §4.2 step 2) because the truncated final column/row is
narrower than the overlap. -/
theorem c6_counterexample :
    dzClip.levelTiles.getD 3 (0, 0) = (3, 3) ∧
    0 < (1 : Int).toNat ∧ (1 : Int).toNat + 1 < 3 ∧
    dzClip.getTileDimensions 3 (1, 1) = some (6, 6) ∧
    ¬ (6 = dzClip.tileSize + 2 * dzClip.overlap) := by
  refine ⟨by decide, by decide, by decide, by decide, by decide⟩

theorem getD_default_irrel {l : List ℚ} {j : Nat} (hj : j < l.length) (a b : ℚ) :
    l.getD j a = l.getD j b := by
  simp [List.getD_eq_getElem?_getD, List.getElem?_eq_getElem hj]

theorem bestFrom_none_spec (d : ℚ) :
    ∀ (vs : List ℚ) (i : Nat), bestFrom d i vs = none →
      ∀ j, j < vs.length → ¬ vs.getD j 0 ≤ d := by
  intro vs
  induction vs with
  | nil =>
    intro i _ j hj
    simp at hj
  | cons v vs ih =>
    intro i hnone j hj
    cases hr : bestFrom d (i + 1) vs with
    | none =>
      simp only [bestFrom, hr] at hnone
      by_cases hv : v ≤ d
      · rw [if_pos hv] at hnone
        cases hnone
      · cases j with
        | zero => simpa using hv
        | succ k =>
          simp only [List.getD_cons_succ]
          exact ih (i + 1) hr k (by simpa using hj)
    | some p =>
      simp only [bestFrom, hr] at hnone
      by_cases hv : v ≤ d
      · rw [if_pos hv] at hnone
        split at hnone <;> cases hnone
      · rw [if_neg hv] at hnone
        cases hnone

theorem bestFrom_some_spec (d : ℚ) :
    ∀ (vs : List ℚ) (i : Nat) (q : Nat × ℚ), bestFrom d i vs = some q →
      (∃ j, j < vs.length ∧ q.1 = i + j ∧ vs.getD j 0 = q.2) ∧ q.2 ≤ d ∧
      (∀ j, j < vs.length → vs.getD j 0 ≤ d → vs.getD j 0 ≤ q.2) ∧
      (∀ j, j < vs.length → vs.getD j 0 = q.2 → q.1 ≤ i + j) := by
  intro vs
  induction vs with
  | nil =>
    intro i q hq
    cases hq
  | cons v vs ih =>
    intro i q hq
    cases hr : bestFrom d (i + 1) vs with
    | none =>
      simp only [bestFrom, hr] at hq
      by_cases hv : v ≤ d
      · rw [if_pos hv] at hq
        obtain rfl : (i, v) = q := by injection hq
        refine ⟨⟨0, by simp, by omega, by simp⟩, hv, ?_, ?_⟩
        · intro j hj hjd
          cases j with
          | zero => simp
          | succ k =>
            exact absurd hjd
              (by simpa using bestFrom_none_spec d vs (i + 1) hr k (by simpa using hj))
        · intro j hj hjq
          omega
      · rw [if_neg hv] at hq
        cases hq
    | some p =>
      simp only [bestFrom, hr] at hq
      have ihp := ih (i + 1) p hr
      by_cases hv : v ≤ d
      · rw [if_pos hv] at hq
        by_cases hlt : v < p.2
        · rw [if_pos hlt] at hq
          obtain rfl : p = q := by injection hq
          refine ⟨?_, ihp.2.1, ?_, ?_⟩
          · obtain ⟨j, hj, hij, hvj⟩ := ihp.1
            exact ⟨j + 1, by simpa using hj, by omega, by simpa using hvj⟩
          · intro j hj hjd
            cases j with
            | zero => simpa using hlt.le
            | succ k =>
              simp only [List.getD_cons_succ] at hjd ⊢
              exact ihp.2.2.1 k (by simpa using hj) hjd
          · intro j hj hjq
            cases j with
            | zero =>
              simp only [List.getD_cons_zero] at hjq
              exact absurd hjq (ne_of_lt hlt)
            | succ k =>
              simp only [List.getD_cons_succ] at hjq
              have := ihp.2.2.2 k (by simpa using hj) hjq
              omega
        · rw [if_neg hlt] at hq
          obtain rfl : (i, v) = q := by injection hq
          have hpv : p.2 ≤ v := le_of_not_lt hlt
          refine ⟨⟨0, by simp, by omega, by simp⟩, hv, ?_, ?_⟩
          · intro j hj hjd
            cases j with
            | zero => simp
            | succ k =>
              simp only [List.getD_cons_succ] at hjd ⊢
              exact le_trans (ihp.2.2.1 k (by simpa using hj) hjd) hpv
          · intro j hj hjq
            omega
      · rw [if_neg hv] at hq
        obtain rfl : p = q := by injection hq
        refine ⟨?_, ihp.2.1, ?_, ?_⟩
        · obtain ⟨j, hj, hij, hvj⟩ := ihp.1
          exact ⟨j + 1, by simpa using hj, by omega, by simpa using hvj⟩
        · intro j hj hjd
          cases j with
          | zero => exact absurd (by simpa using hjd) hv
          | succ k =>
            simp only [List.getD_cons_succ] at hjd ⊢
            exact ihp.2.2.1 k (by simpa using hj) hjd
        · intro j hj hjq
          cases j with
          | zero =>
            simp only [List.getD_cons_zero] at hjq
            exact absurd (hjq ▸ ihp.2.1) hv
          | succ k =>
            simp only [List.getD_cons_succ] at hjq
            have := ihp.2.2.2 k (by simpa using hj) hjq
            omega

theorem bestLevel_mem_spec (downs : List ℚ) (d : ℚ)
    (hex : ∃ j, j < downs.length ∧ downs.getD j 0 ≤ d) :
    bestLevel downs d < downs.length ∧
    downs.getD (bestLevel downs d) 0 ≤ d ∧
    (∀ j, j < downs.length → downs.getD j 0 ≤ d →
      downs.getD j 0 ≤ downs.getD (bestLevel downs d) 0) ∧
    (∀ j, j < downs.length → downs.getD j 0 = downs.getD (bestLevel downs d) 0 →
      bestLevel downs d ≤ j) := by
  obtain ⟨j0, hj0, hq0⟩ := hex
  rw [bestLevel]
  cases hr : bestFrom d 0 downs with
  | none => exact absurd hq0 (bestFrom_none_spec d downs 0 hr j0 hj0)
  | some q =>
    have hs := bestFrom_some_spec d downs 0 q hr
    obtain ⟨⟨j, hj, hij, hvj⟩, hqd, hmax, htie⟩ := hs
    have hq1 : q.1 = j := by omega
    have hgd : downs.getD q.1 0 = q.2 := by rw [hq1]; exact hvj
    subst hq1
    refine ⟨hj, by rw [hgd]; exact hqd, ?_, ?_⟩
    · intro k hk hkd
      rw [hgd]
      exact hmax k hk hkd
    · intro k hk hkq
      rw [hgd] at hkq
      simpa using htie k hk hkq

theorem bestLevel_none_spec (downs : List ℚ) (d : ℚ)
    (hnone : ∀ j, j < downs.length → ¬ downs.getD j 0 ≤ d) :
    bestLevel downs d = 0 := by
  rw [bestLevel]
  cases hr : bestFrom d 0 downs with
  | none => rfl
  | some q =>
    have hs := bestFrom_some_spec d downs 0 q hr
    obtain ⟨⟨j, hj, _, hvj⟩, hqd, _, _⟩ := hs
    exact absurd (hvj ▸ hqd) (hnone j hj)

/-- C7 (amended): for every pyramid level, `levelSlideLevel` is the discrete
level maximizing the downsample subject to not exceeding the implied
downsample `2^(levelCount-1-l)` (ties toward the lower index; discrete level
0 when none qualifies), and `levelSlideResizeFactor` - the chosen discrete
downsample divided by the implied downsample, per spec §4.1 step 5 - is
always `≤ 1` (not `≥ 1` as the claim states). -/
theorem c7_level_selection (dz : DeepZoom) (l : Nat)
    (h0 : dz.slide.levelDowns.getD 0 1 = 1) (hne : dz.slide.levelDowns ≠ []) :
    dz.levelSlideLevel l < dz.slide.levelDowns.length ∧
    dz.slide.levelDowns.getD (dz.levelSlideLevel l) 1 ≤ dz.impliedDownsample l ∧
    (∀ j, j < dz.slide.levelDowns.length →
      dz.slide.levelDowns.getD j 1 ≤ dz.impliedDownsample l →
      dz.slide.levelDowns.getD j 1 ≤ dz.slide.levelDowns.getD (dz.levelSlideLevel l) 1) ∧
    (∀ j, j < dz.slide.levelDowns.length →
      dz.slide.levelDowns.getD j 1 = dz.slide.levelDowns.getD (dz.levelSlideLevel l) 1 →
      dz.levelSlideLevel l ≤ j) ∧
    dz.levelSlideResizeFactor l ≤ 1 ∧
    (∀ downs d, (∀ j, j < List.length downs → ¬ List.getD downs j 1 ≤ d) →
      bestLevel downs d = 0) := by
  have hlen : 0 < dz.slide.levelDowns.length := List.length_pos.mpr hne
  have hd1 : 1 ≤ dz.impliedDownsample l := by
    rw [impliedDownsample_eq_cast]
    exact_mod_cast Nat.one_le_two_pow
  have hq0 : dz.slide.levelDowns.getD 0 0 ≤ dz.impliedDownsample l := by
    rw [getD_default_irrel hlen 0 1, h0]
    exact hd1
  have hs := bestLevel_mem_spec dz.slide.levelDowns (dz.impliedDownsample l)
    ⟨0, hlen, hq0⟩
  have hL : dz.levelSlideLevel l = bestLevel dz.slide.levelDowns (dz.impliedDownsample l) := rfl
  rw [hL]
  obtain ⟨hlt, hle, hmax, htie⟩ := hs
  have hdef := getD_default_irrel hlt (1 : ℚ) 0
  refine ⟨hlt, by rw [hdef]; exact hle, ?_, ?_, ?_, ?_⟩
  · intro j hj hjd
    rw [getD_default_irrel hj (1 : ℚ) 0] at hjd
    rw [hdef, getD_default_irrel hj (1 : ℚ) 0]
    exact hmax j hj hjd
  · intro j hj hjq
    rw [hdef, getD_default_irrel hj (1 : ℚ) 0] at hjq
    exact htie j hj hjq
  · rw [DeepZoom.levelSlideResizeFactor, div_le_one (lt_of_lt_of_le one_pos hd1), hL, hdef]
    exact hle
  · intro downs d hnone
    apply bestLevel_none_spec
    intro j hj
    rw [getD_default_irrel hj (0 : ℚ) 1]
    exact hnone j hj

/-- Witness for C7 at the concrete `boxes.tiff` generator and level 9. -/
theorem c7_witness :
    dzBoxes.levelSlideLevel 9 < dzBoxes.slide.levelDowns.length ∧
    dzBoxes.levelSlideResizeFactor 9 ≤ 1 := by
  have h := c7_level_selection dzBoxes 9 rfl (by decide)
  exact ⟨h.1, h.2.2.2.2.1⟩

/-- Counterexample to C7 as stated: for the `boxes.tiff` generator at pyramid
level 0 (implied downsample 512), the chosen discrete level is 3 and the
resize factor of spec §4.1 step 5 - chosen downsample / implied downsample -
is below 1, contradicting the claimed invariant `≥ 1.0`. -/
theorem c7_counterexample :
    dzBoxes.levelSlideLevel 0 = 3 ∧ dzBoxes.levelSlideResizeFactor 0 < 1 := by
  constructor
  · norm_num [DeepZoom.levelSlideLevel, DeepZoom.impliedDownsample,
      dzBoxes_levelCount, dzBoxes_levelDowns, bestLevel, bestFrom]
  · norm_num [DeepZoom.levelSlideResizeFactor, DeepZoom.levelSlideLevel,
      DeepZoom.impliedDownsample, dzBoxes_levelCount, dzBoxes_levelDowns,
      bestLevel, bestFrom]

/-- C8: the descriptor document contains the DeepZoom schema namespace
identifier, the configured tile size and overlap, the declared format, and
the bounds-limited full-resolution width/height as a nested `Size` element;
for the 300×250 scenario it contains `TileSize="254"` and `Overlap="1"`. -/
theorem c8_descriptor :
    (∀ (dz : DeepZoom) (fmt : String),
      strContains (dz.getDescriptor fmt) dziSchema ∧
      strContains (dz.getDescriptor fmt)
        ("TileSize=\"" ++ toString dz.tileSize ++ "\"") ∧
      strContains (dz.getDescriptor fmt)
        ("Overlap=\"" ++ toString dz.overlap ++ "\"") ∧
      strContains (dz.getDescriptor fmt) ("Format=\"" ++ fmt ++ "\"") ∧
      strContains (dz.getDescriptor fmt)
        ("<Size Width=\"" ++ toString dz.boundsSize.1 ++
         "\" Height=\"" ++ toString dz.boundsSize.2 ++ "\"/>")) ∧
    strContains (dzBoxes.getDescriptor "jpeg") "TileSize=\"254\"" ∧
    strContains (dzBoxes.getDescriptor "jpeg") "Overlap=\"1\"" ∧
    strContains (dzBoxes.getDescriptor "jpeg") dziSchema := by
  have hgen : ∀ (dz : DeepZoom) (fmt : String),
      strContains (dz.getDescriptor fmt) dziSchema ∧
      strContains (dz.getDescriptor fmt)
        ("TileSize=\"" ++ toString dz.tileSize ++ "\"") ∧
      strContains (dz.getDescriptor fmt)
        ("Overlap=\"" ++ toString dz.overlap ++ "\"") ∧
      strContains (dz.getDescriptor fmt) ("Format=\"" ++ fmt ++ "\"") ∧
      strContains (dz.getDescriptor fmt)
        ("<Size Width=\"" ++ toString dz.boundsSize.1 ++
         "\" Height=\"" ++ toString dz.boundsSize.2 ++ "\"/>") := by
    intro dz fmt
    refine ⟨⟨"<?xml version=\"1.0\" encoding=\"UTF-8\"?><Image " ++
        ("TileSize=\"" ++ toString dz.tileSize ++ "\"") ++ " " ++
        ("Overlap=\"" ++ toString dz.overlap ++ "\"") ++ " " ++
        ("Format=\"" ++ fmt ++ "\"") ++ " xmlns=\"",
        "\">" ++ ("<Size Width=\"" ++ toString dz.boundsSize.1 ++
          "\" Height=\"" ++ toString dz.boundsSize.2 ++ "\"/>") ++ "</Image>",
        ?_⟩,
      ⟨"<?xml version=\"1.0\" encoding=\"UTF-8\"?><Image ",
        " " ++ ("Overlap=\"" ++ toString dz.overlap ++ "\"") ++ " " ++
        ("Format=\"" ++ fmt ++ "\"") ++ " xmlns=\"" ++ dziSchema ++ "\">" ++
        ("<Size Width=\"" ++ toString dz.boundsSize.1 ++
          "\" Height=\"" ++ toString dz.boundsSize.2 ++ "\"/>") ++ "</Image>",
        ?_⟩,
      ⟨"<?xml version=\"1.0\" encoding=\"UTF-8\"?><Image " ++
        ("TileSize=\"" ++ toString dz.tileSize ++ "\"") ++ " ",
        " " ++ ("Format=\"" ++ fmt ++ "\"") ++ " xmlns=\"" ++ dziSchema ++ "\">" ++
        ("<Size Width=\"" ++ toString dz.boundsSize.1 ++
          "\" Height=\"" ++ toString dz.boundsSize.2 ++ "\"/>") ++ "</Image>",
        ?_⟩,
      ⟨"<?xml version=\"1.0\" encoding=\"UTF-8\"?><Image " ++
        ("TileSize=\"" ++ toString dz.tileSize ++ "\"") ++ " " ++
        ("Overlap=\"" ++ toString dz.overlap ++ "\"") ++ " ",
        " xmlns=\"" ++ dziSchema ++ "\">" ++
        ("<Size Width=\"" ++ toString dz.boundsSize.1 ++
          "\" Height=\"" ++ toString dz.boundsSize.2 ++ "\"/>") ++ "</Image>",
        ?_⟩,
      ⟨"<?xml version=\"1.0\" encoding=\"UTF-8\"?><Image " ++
        ("TileSize=\"" ++ toString dz.tileSize ++ "\"") ++ " " ++
        ("Overlap=\"" ++ toString dz.overlap ++ "\"") ++ " " ++
        ("Format=\"" ++ fmt ++ "\"") ++ " xmlns=\"" ++ dziSchema ++ "\">",
        "</Image>",
        ?_⟩⟩ <;>
      simp only [DeepZoom.getDescriptor, String.append_assoc]
  have hb := hgen dzBoxes "jpeg"
  have hts : ("TileSize=\"" ++ toString dzBoxes.tileSize ++ "\"") = "TileSize=\"254\"" := rfl
  have hov : ("Overlap=\"" ++ toString dzBoxes.overlap ++ "\"") = "Overlap=\"1\"" := rfl
  exact ⟨hgen, hts ▸ hb.2.1, hov ▸ hb.2.2.1, hb.1⟩

/-- C9: after `close()` (directly or through `__exit__`), every operation
touching the slide raises `OpenSlideError("Slide object was closed")`, while
`close` itself is a total function (it always succeeds) and is idempotent. -/
theorem c9_close_semantics (s : OpenSlide) (size : Nat × Nat) (n : Nat) (q : ℚ)
    (loc : Int × Int) (lvl : Nat) (szr : Nat × Nat) :
    s.close.close = s.close ∧
    s.exitCM = s.close ∧
    s.close.osr = none ∧
    s.close.level_count = Except.error closedMsg ∧
    s.close.level_dimensions = Except.error closedMsg ∧
    s.close.level_downsamples = Except.error closedMsg ∧
    s.close.properties = Except.error closedMsg ∧
    s.close.associated_images = Except.error closedMsg ∧
    s.close.get_best_level_for_downsample q = Except.error closedMsg ∧
    s.close.read_region loc lvl szr = Except.error closedMsg ∧
    s.close.get_thumbnail size = Except.error closedMsg ∧
    s.close.set_cache_size n = Except.error closedMsg :=
  ⟨rfl, rfl, rfl, rfl, rfl, rfl, rfl, rfl, rfl, rfl, rfl, rfl⟩

/-- C10: for every `OpenSlideMap` and key, `__getitem__` raises
`KeyError(key)` exactly when the key is not in the fetched name list,
otherwise returns the accessor closure applied to the key; `__len__` is the
number of names and `__iter__` yields exactly the names. -/
theorem c10_map_semantics {α : Type} (m : OpenSlideMap α) (k : String) :
    (m.getItem k = Except.error k ↔ k ∉ m.names) ∧
    (k ∈ m.names → m.getItem k = Except.ok (m.closure k)) ∧
    m.length = m.names.length ∧
    m.iter = m.names := by
  refine ⟨?_, ?_, rfl, rfl⟩
  · constructor
    · intro h hk
      rw [OpenSlideMap.getItem, if_pos hk] at h
      cases h
    · intro h
      rw [OpenSlideMap.getItem, if_neg h]
  · intro hk
    rw [OpenSlideMap.getItem, if_pos hk]

/-- Witness for C10 on a concrete one-name map (the `openslide.vendor`
property of the test fixture). -/
theorem c10_witness :
    (OpenSlideMap.mk ["openslide.vendor"] (fun _ => "generic-tiff")).getItem
        "openslide.vendor" = Except.ok "generic-tiff" ∧
    ((OpenSlideMap.mk ["openslide.vendor"] (fun _ => "generic-tiff")).getItem
        "__missing" = Except.error "__missing" ↔
      "__missing" ∉ (OpenSlideMap.mk ["openslide.vendor"]
        (fun _ => "generic-tiff")).names) :=
  ⟨(c10_map_semantics (OpenSlideMap.mk ["openslide.vendor"]
      (fun _ => "generic-tiff")) "openslide.vendor").2.1 (by decide),
   (c10_map_semantics (OpenSlideMap.mk ["openslide.vendor"]
      (fun _ => "generic-tiff")) "__missing").1⟩

end OpenslidePy
